import Mathlib

/-
Verification of the pymerkle hash-engine and proof-validation subsystem.

Shallow embedding of:
  src/pymerkle/hashing.py              (class HashEngine)
  src/pymerkle/validations/validations.py
    (class Validator, validateProof, validationReceipt, class Receipt)

Bytes are modelled as `List Nat` (one Nat per byte).  The underlying raw
digest primitives of Python's hashlib are external library code and are
modelled by an abstract function `H : String → Bytes → Bytes` mapping an
algorithm name and the full accumulated input to the raw digest bytes;
hashlib's documented incremental-update contract (updates concatenate) is
what makes this faithful.  Python text strings are modelled by `String`,
dicts by association lists, and raised exceptions by `Except`.
-/

set_option autoImplicit false

namespace Pymerkle

/-- Byte strings: one `Nat` per byte. -/
abbrev Bytes := List Nat

/-- Modelled from Python `str.lower()` (code-point-wise lowering; exact on the
ASCII identifiers that occur in the supported-parameter sets). -/
def pyLower (s : String) : String :=
  String.mk (s.toList.map Char.toLower)

/-- Modelled from Python `str.replace('-', '_')`. -/
def pyReplaceDash (s : String) : String :=
  String.mk (s.toList.map (fun c => if c = '-' then '_' else c))

/-- UTF-8 encoding of a single character. -/
def utf8EncodeChar (c : Char) : Bytes :=
  let n := c.toNat
  if n < 0x80 then [n]
  else if n < 0x800 then
    [0xC0 ||| (n >>> 6), 0x80 ||| (n &&& 0x3F)]
  else if n < 0x10000 then
    [0xE0 ||| (n >>> 12), 0x80 ||| ((n >>> 6) &&& 0x3F), 0x80 ||| (n &&& 0x3F)]
  else
    [0xF0 ||| (n >>> 18), 0x80 ||| ((n >>> 12) &&& 0x3F),
     0x80 ||| ((n >>> 6) &&& 0x3F), 0x80 ||| (n &&& 0x3F)]

/-- Modelled from Python `str.encode(encoding)` (stdlib codec machinery).  The
supported encodings we model (`ascii`, `utf_8`, see `ENCODINGS`) agree with
the UTF-8 byte sequence of the string, so the encoding argument does not
change the produced bytes; it is kept to mirror the call shape of the source. -/
def encode (_enc : String) (s : String) : Bytes :=
  (s.toList.map utf8EncodeChar).flatten

/-- Modelled from the spec: the closed enumeration `ALGORITHMS` of
`pymerkle.constants` (that module is absent from src/).  The spec describes
the supported digest functions as a closed enumeration and names sha256 in
its examples; we model the standard hashlib sha-2/sha-3 family, whose
hashlib attribute names are exactly these lowercase strings. -/
def ALGORITHMS : List String :=
  ["sha224", "sha256", "sha384", "sha512",
   "sha3_224", "sha3_256", "sha3_384", "sha3_512"]

/-- Modelled from the spec: the closed enumeration `ENCODINGS` of
`pymerkle.constants` (absent from src/).  The spec describes a closed
enumeration of supported text encodings and uses utf-8 in its examples; we
model the encodings for which our byte-level `encode` model is exact. -/
def ENCODINGS : List String := ["ascii", "utf_8"]

/-- Python-side normalization applied by `HashEngine.validate_parameters`
(hashing.py line 45): `provided.lower().replace('-', '_')`. -/
def normalize (s : String) : String :=
  pyReplaceDash (pyLower s)

/-- The `UnsupportedParameter` exception of hashing.py. -/
inductive HashErr where
  | unsupportedParameter (msg : String)
  deriving DecidableEq

/-- Embeds `HashEngine.validate_parameters` (hashing.py lines 37-51): each
provided value is normalized and looked up in the corresponding supported
set, the algorithm first; the first failure raises `UnsupportedParameter`
with the message built from the original (un-normalized) value. -/
def validate_parameters (algorithm encoding : String) :
    Except HashErr (String × String) :=
  let na := normalize algorithm
  if na ∈ ALGORITHMS then
    let ne := normalize encoding
    if ne ∈ ENCODINGS then .ok (na, ne)
    else .error (.unsupportedParameter (encoding ++ " is not supported"))
  else .error (.unsupportedParameter (algorithm ++ " is not supported"))

/-- The state of a constructed `HashEngine` (hashing.py lines 26-34). -/
structure HashEngine where
  algorithm : String
  encoding : String
  security : Bool
  prefx00 : Bytes
  prefx01 : Bytes
  deriving DecidableEq

/-- Embeds `HashEngine.__init__` (hashing.py lines 26-34).  Note the source
typo on line 27: the tuple unpack binds the normalized algorithm to the
misspelled dead local `algorith`, so `self.algorithm` stores the argument as
provided, while `self.encoding` stores the normalized encoding (the local
`encoding` was rebound by the unpack).  The prefixes are
`'\x00'.encode(encoding)` / `'\x01'.encode(encoding)` when `security` is
true and empty bytes otherwise. -/
def HashEngine.init (algorithm encoding : String) (security : Bool) :
    Except HashErr HashEngine :=
  match validate_parameters algorithm encoding with
  | .error e => .error e
  | .ok (_algorith, enc) =>
      .ok { algorithm := algorithm
          , encoding := enc
          , security := security
          , prefx00 := if security then encode enc "\x00" else []
          , prefx01 := if security then encode enc "\x01" else [] }

/-- Hex character for a value below 16, lowercase (as `hexdigest` produces). -/
def hexDigit (n : Nat) : Char :=
  if n < 10 then Char.ofNat (48 + n) else Char.ofNat (87 + n)

/-- Two lowercase hex characters of one byte. -/
def byteHex (b : Nat) : List Char :=
  [hexDigit (b / 16 % 16), hexDigit (b % 16)]

/-- Modelled from hashlib `hexdigest()`: the lowercase hexadecimal rendering
of the raw digest bytes. -/
def toHexString (bs : Bytes) : String :=
  String.mk (bs.map byteHex).flatten

/-- The chunk-feeding loop of `HashEngine.consume` (hashing.py lines 62-71):
the hasher state is the accumulated update input (hashlib's update contract:
successive updates concatenate), `offset` starts at 0 and advances by the
chunk size 1024, and the loop stops at the first empty chunk.  The first
chunk `buffer[offset : chunksize]` (with `offset = 0`) coincides with
`buffer[offset : offset + chunksize]`, as here. -/
def feedChunks (buffer : Bytes) (offset : Nat) (state : Bytes) : Bytes :=
  if h : (buffer.drop offset).take 1024 = [] then state
  else feedChunks buffer (offset + 1024) (state ++ (buffer.drop offset).take 1024)
termination_by buffer.length - offset
decreasing_by
  have hne : buffer.drop offset ≠ [] := by
    intro hd
    exact h (by rw [hd]; rfl)
  have hlt : offset < buffer.length := by
    by_contra hge
    exact hne (List.drop_eq_nil_of_le (Nat.le_of_not_lt hge))
  omega

/-- Embeds `HashEngine.consume` (hashing.py lines 54-75), with the raw digest
primitive abstracted as `H`: instantiate the hasher for `self.algorithm`,
feed the buffer through the chunk loop, take the lowercase hex digest of the
accumulated input and encode it with `self.encoding`. -/
def consume (H : String → Bytes → Bytes) (eng : HashEngine) (buffer : Bytes) :
    Bytes :=
  encode eng.encoding (toHexString (H eng.algorithm (feedChunks buffer 0 [])))

/-- Modelled from the spec: the one-shot digest ("the digest is identical
regardless of chunk size"): hash the entire buffer in one call, hex-encode,
re-encode with the configured encoding.  Stated for comparison with
`consume`. -/
def consume_oneshot (H : String → Bytes → Bytes) (eng : HashEngine)
    (buffer : Bytes) : Bytes :=
  encode eng.encoding (toHexString (H eng.algorithm buffer))

/-- The argument of `hash_entry`: Python `bytes` or `str`. -/
inductive EntryData where
  | bytes (b : Bytes)
  | text (s : String)
  deriving DecidableEq

/-- Embeds `HashEngine.hash_entry` (hashing.py lines 78-93): text input is
encoded with `self.encoding`, the buffer is `self.prefx00 + data`, and the
result is `consume` of that buffer. -/
def hash_entry (H : String → Bytes → Bytes) (eng : HashEngine)
    (data : EntryData) : Bytes :=
  let d := match data with
    | .bytes b => b
    | .text s => encode eng.encoding s
  consume H eng (eng.prefx00 ++ d)

/-- Embeds `HashEngine.hash_pair` (hashing.py lines 96-112): the buffer is
`self.prefx01 + left + self.prefx01 + right`. -/
def hash_pair (H : String → Bytes → Bytes) (eng : HashEngine)
    (left right : Bytes) : Bytes :=
  consume H eng (eng.prefx01 ++ left ++ eng.prefx01 ++ right)

/-
Embedding of src/pymerkle/validations/validations.py.  That module imports
`HashMachine` from pymerkle.hashing, `InvalidMerkleProof` from
pymerkle.exceptions and `ReceiptSerializer` from pymerkle.serializers; none
of those definitions are under src/, so they are modelled from the spec
where marked below.
-/

/-- JSON-compatible values: Python dicts / strings / ints / bools as handled
by `json.dumps` in this module (receipt headers and bodies). -/
inductive JVal where
  | str (s : String)
  | int (n : Int)
  | bool (b : Bool)
  | obj (fields : List (String × JVal))

/-- Dict lookup `d[k]` on a JSON object, `none` when the key is absent or
the value is not an object. -/
def jGet : JVal → String → Option JVal
  | .obj fields, k => (fields.find? (fun kv => kv.1 == k)).map (fun kv => kv.2)
  | _, _ => none

/-- Code-point lexicographic comparison of character lists (Python string
ordering, used by `json.dumps(..., sort_keys=True)`). -/
def charListLe : List Char → List Char → Bool
  | [], _ => true
  | _ :: _, [] => false
  | a :: as, b :: bs =>
    if a.toNat < b.toNat then true
    else if b.toNat < a.toNat then false
    else charListLe as bs

/-- Python string `<=`, code-point lexicographic. -/
def strLe (a b : String) : Bool :=
  charListLe a.toList b.toList

/-- Insertion into a key-sorted field list. -/
def insertField (x : String × JVal) :
    List (String × JVal) → List (String × JVal)
  | [] => [x]
  | y :: ys => if strLe x.1 y.1 then x :: y :: ys else y :: insertField x ys

/-- Insertion sort of object fields by key. -/
def sortFields : List (String × JVal) → List (String × JVal)
  | [] => []
  | x :: xs => insertField x (sortFields xs)

mutual

/-- Recursively sort every object's fields by key (the `sort_keys=True`
behaviour of `json.dumps`). -/
def JVal.sortKeys : JVal → JVal
  | .obj fields => .obj (sortFields (JVal.sortKeysFields fields))
  | .str s => .str s
  | .int n => .int n
  | .bool b => .bool b

/-- Key-sorting mapped over a field list. -/
def JVal.sortKeysFields : List (String × JVal) → List (String × JVal)
  | [] => []
  | kv :: rest => (kv.1, JVal.sortKeys kv.2) :: JVal.sortKeysFields rest

end

/-- JSON string escaping (quote and backslash; sufficient for the uuid /
timestamp / identifier strings this module serializes). -/
def escapeChar (c : Char) : String :=
  if c = '\\' then "\\\\"
  else if c = '"' then "\\\""
  else String.singleton c

/-- Escape every character of a string. -/
def escapeStr (s : String) : String :=
  String.join (s.toList.map escapeChar)

/-- A run of `n` spaces. -/
def indentStr (n : Nat) : String :=
  String.mk (List.replicate n ' ')

mutual

/-- Modelled from Python `json.dumps(..., indent=4)` (stdlib): render a JSON
value, with objects spread over lines indented four spaces per level. -/
def printJVal (ind : Nat) : JVal → String
  | .str s => "\"" ++ escapeStr s ++ "\""
  | .int n => toString n
  | .bool b => if b then "true" else "false"
  | .obj [] => "\x7b\x7d"
  | .obj (kv :: rest) =>
      "\x7b\n" ++ printFields (ind + 4) (kv :: rest) ++ "\n"
        ++ indentStr ind ++ "\x7d"

/-- Comma-and-newline separated `"key": value` lines of an object body. -/
def printFields (ind : Nat) : List (String × JVal) → String
  | [] => ""
  | [kv] => indentStr ind ++ "\"" ++ escapeStr kv.1 ++ "\": "
              ++ printJVal ind kv.2
  | kv :: rest => indentStr ind ++ "\"" ++ escapeStr kv.1 ++ "\": "
              ++ printJVal ind kv.2 ++ ",\n" ++ printFields ind rest

end

/-- Modelled from Python `json.dumps(v, sort_keys=True, indent=4)`: keys are
sorted at every level, then the value is rendered with 4-space indentation. -/
def jsonDumps (v : JVal) : String :=
  printJVal 0 (JVal.sortKeys v)

/-- The exceptions raised in validations.py: `InvalidMerkleProof` (imported
from the absent pymerkle.exceptions module, carrying no data), the `KeyError`
re-raised by `Validator.__init__`, and the unsupported-parameter failure of
the underlying hash machine. -/
inductive VError where
  | invalidMerkleProof
  | keyError (msg : String)
  | unsupportedParameter (msg : String)
  deriving DecidableEq

/-- A signed hash entry of a proof path: `(sign, hash_bytes)`. -/
abbrev SignedHash := Int × Bytes

/-- Modelled from the spec: the configuration state of
`pymerkle.hashing.HashMachine` (the class is absent from src/), holding the
four validation parameters the spec requires. -/
structure HashMachine where
  hash_type : String
  encoding : String
  raw_bytes : Bool
  security : Bool
  deriving DecidableEq

/-- A value of the configuration mapping: Python strings or booleans. -/
inductive CVal where
  | str (s : String)
  | bool (b : Bool)
  deriving DecidableEq

/-- The configuration mapping passed to `Validator`: a Python dict, modelled
as an association list. -/
abbrev Config := List (String × CVal)

/-- Dict lookup `config[k]` as an `Option`. -/
def Config.get? (c : Config) (k : String) : Option CVal :=
  (c.find? (fun kv => kv.1 == k)).map (fun kv => kv.2)

/-- The message of the `KeyError` re-raised by `Validator.__init__`
(validations.py line 32): `'Hash-machine could not be configured: missing
parameter: %s' % e`, where Python renders the original `KeyError` as the
quoted key name. -/
def missingKeyMsg (k : String) : String :=
  "Hash-machine could not be configured: missing parameter: \x27"
    ++ (k ++ "\x27")

/-- Modelled from the spec: the constructor of `pymerkle.hashing.HashMachine`
(absent from src/).  Per the spec, configuring with an algorithm or encoding
outside the supported sets fails with an unsupported-parameter error and any
supported configuration succeeds, storing the four parameters. -/
def HashMachine.init : CVal → CVal → CVal → CVal → Except VError HashMachine
  | .str ht, .str enc, .bool rb, .bool sec =>
      if ht ∈ ALGORITHMS ∧ enc ∈ ENCODINGS then .ok ⟨ht, enc, rb, sec⟩
      else .error (.unsupportedParameter (ht ++ "/" ++ enc ++ " is not supported"))
  | _, _, _, _ => .error (.unsupportedParameter "invalid parameter types")

/-- Embeds `Validator.__init__` (validations.py lines 25-36): the four keys
`hash_type`, `encoding`, `raw_bytes`, `security` are read from the mapping in
that order; the first absent key raises the re-worded `KeyError`; the values
are then handed to the hash-machine constructor. -/
def Validator.init (config : Config) : Except VError HashMachine :=
  match config.get? "hash_type" with
  | none => .error (.keyError (missingKeyMsg "hash_type"))
  | some hash_type =>
  match config.get? "encoding" with
  | none => .error (.keyError (missingKeyMsg "encoding"))
  | some encoding =>
  match config.get? "raw_bytes" with
  | none => .error (.keyError (missingKeyMsg "raw_bytes"))
  | some raw_bytes =>
  match config.get? "security" with
  | none => .error (.keyError (missingKeyMsg "security"))
  | some security => HashMachine.init hash_type encoding raw_bytes security

/-- The proof header fields used by this module: the generation flag, the
mutable status slot, uuid and provider. -/
structure ProofHeader where
  generation : Bool
  status : Option Bool
  uuid : String
  provider : String
  deriving DecidableEq

/-- The proof body: the signed hash path and the start index. -/
structure ProofBody where
  proof_path : List SignedHash
  proof_index : Nat
  deriving DecidableEq

/-- The external proof object consumed by this module, with
`get_validation_params()` modelled as the stored mapping. -/
structure Proof where
  header : ProofHeader
  body : ProofBody
  validation_params : Config
  deriving DecidableEq

/-- Embeds `Validator.run` (validations.py lines 38-57), with the inherited
`multi_hash` path-fold abstracted as `mh` (the method belongs to the absent
`HashMachine`; the spec leaves its precise fold convention open): a proof
whose generation flag is false fails at once; otherwise the candidate root
`multi_hash(proof_path, proof_index)` is compared to `target` by byte
equality and a mismatch raises `InvalidMerkleProof`. -/
def Validator.run (mh : HashMachine → List SignedHash → Nat → Bytes)
    (v : HashMachine) (target : Bytes) (p : Proof) : Except VError Unit :=
  if p.header.generation = false then .error .invalidMerkleProof
  else if target ≠ mh v p.body.proof_path p.body.proof_index then
    .error .invalidMerkleProof
  else .ok ()

/-- The status write `proof.header['status'] = result`. -/
def Proof.setStatus (p : Proof) (b : Bool) : Proof :=
  { p with header := { p.header with status := some b } }

/-- Embeds `validateProof` (validations.py lines 60-86): a validator is built
from `proof.get_validation_params()` (construction failures propagate); `run`
is executed under a `try` that catches exactly `InvalidMerkleProof`, mapping
it to `False` and a clean return to `True`; the boolean is written into
`proof.header['status']` and returned.  The mutated proof is returned
alongside the boolean to model the side effect. -/
def validateProof (mh : HashMachine → List SignedHash → Nat → Bytes)
    (target : Bytes) (p : Proof) : Except VError (Bool × Proof) :=
  match Validator.init p.validation_params with
  | .error e => .error e
  | .ok v =>
    match Validator.run mh v target p with
    | .ok _ => .ok (true, p.setStatus true)
    | .error .invalidMerkleProof => .ok (false, p.setStatus false)
    | .error e => .error e

/-- A validation receipt: `header` and `body` are Python dicts (arbitrary
JSON objects under replication, the fixed schema when freshly built). -/
structure Receipt where
  header : JVal
  body : JVal

/-- Embeds the fresh branch of `Receipt.__init__` (validations.py lines
160-191): a new uuid, integer timestamp and human-readable moment are minted
by the caller's environment (`uuid.uuid1()`, `time()`, `ctime()` — external
stdlib, passed here as arguments) and stored in the header; the body holds
the three payload fields. -/
def Receipt.fresh (uuid : String) (timestamp : Int) (moment : String)
    (proof_uuid proof_provider : String) (result : Bool) : Receipt :=
  { header := .obj [("uuid", .str uuid), ("timestamp", .int timestamp),
                    ("validation_moment", .str moment)]
  , body := .obj [("proof_uuid", .str proof_uuid),
                  ("proof_provider", .str proof_provider),
                  ("result", .bool result)] }

/-- Modelled from the spec: `ReceiptSerializer.default` (the
pymerkle.serializers module is absent from src/); per the spec's receipt file
schema it returns the mapping with the receipt's `header` and `body`. -/
def Receipt.serialize (r : Receipt) : JVal :=
  .obj [("header", r.header), ("body", r.body)]

/-- Embeds `Receipt.toJsonString` (validations.py lines 226-232):
`json.dumps` of the serialization with sorted keys and indent 4. -/
def Receipt.toJsonString (r : Receipt) : String :=
  jsonDumps r.serialize

/-- Embeds the `from_dict` branch of `Receipt.__init__` (validations.py lines
174-176): `header` and `body` are copied verbatim from the given dict; a
missing key raises `KeyError` (header first).  No uuid or timestamp is
minted. -/
def Receipt.from_dict (d : JVal) : Except VError Receipt :=
  match jGet d "header", jGet d "body" with
  | some h, some b => .ok ⟨h, b⟩
  | none, _ => .error (.keyError "\x27header\x27")
  | _, none => .error (.keyError "\x27body\x27")

/-- Embeds the `from_json` branch of `Receipt.__init__` (validations.py lines
177-180): `json.loads` (stdlib, abstracted as `parse`) recovers the dict and
the `from_dict` copy is applied to it. -/
def Receipt.from_json (parse : String → JVal) (s : String) :
    Except VError Receipt :=
  Receipt.from_dict (parse s)

/-- Modelled from Python `os.path.join` (stdlib) for the relative-directory
case used here. -/
def joinPath (d f : String) : String :=
  if d.endsWith "/" then d ++ f else d ++ "/" ++ f

/-- A file write performed by `validationReceipt`: destination path and
written text. -/
structure FileWrite where
  path : String
  content : String
  deriving DecidableEq

/-- Embeds `validationReceipt` (validations.py lines 89-124): run
`validateProof` (its exceptions propagate), build a fresh receipt from the
proof header's uuid and provider and the boolean result, and — only under
Python truthiness of `dirpath` (a non-empty string) — dump the serialized
receipt, sorted keys and indent 4, to `<dirpath>/<receipt.header['uuid']>.json`
(the freshly minted uuid). The performed write, if any, is returned to model
the I/O. -/
def validationReceipt (mh : HashMachine → List SignedHash → Nat → Bytes)
    (uuid : String) (timestamp : Int) (moment : String)
    (target : Bytes) (p : Proof) (dirpath : Option String) :
    Except VError (Receipt × Proof × Option FileWrite) :=
  match validateProof mh target p with
  | .error e => .error e
  | .ok (result, p1) =>
    let receipt := Receipt.fresh uuid timestamp moment
        p1.header.uuid p1.header.provider result
    let write : Option FileWrite :=
      match dirpath with
      | some d =>
        if d.isEmpty then none
        else some ⟨joinPath d (uuid ++ ".json"), jsonDumps receipt.serialize⟩
      | none => none
    .ok (receipt, p1, write)

/-! Helper lemmas. -/

/-- The chunk loop appends exactly the part of the buffer from `offset` on to
the hasher state. -/
theorem feedChunks_drop (n : Nat) :
    ∀ (buffer : Bytes) (offset : Nat) (state : Bytes),
      buffer.length - offset ≤ n →
      feedChunks buffer offset state = state ++ buffer.drop offset := by
  induction n with
  | zero =>
    intro buffer offset state hn
    have hd : buffer.drop offset = [] := List.drop_eq_nil_of_le (by omega)
    rw [feedChunks]
    simp [hd]
  | succ n ih =>
    intro buffer offset state hn
    rw [feedChunks]
    by_cases hc : (buffer.drop offset).take 1024 = []
    · have hd : buffer.drop offset = [] := by
        rcases List.take_eq_nil_iff.mp hc with h1 | h2
        · omega
        · exact h2
      simp [hc, hd]
    · rw [dif_neg hc]
      have hlt : offset < buffer.length := by
        by_contra hge
        exact hc (by
          rw [List.drop_eq_nil_of_le (Nat.le_of_not_lt hge)]
          rfl)
      rw [ih buffer (offset + 1024) _ (by omega)]
      have hdd : buffer.drop (offset + 1024) =
          (buffer.drop offset).drop 1024 := by
        rw [List.drop_drop, Nat.add_comm]
      rw [hdd, List.append_assoc, List.take_append_drop]

/-- Feeding a whole buffer from offset 0 into a fresh hasher accumulates
exactly the buffer. -/
theorem feedChunks_id (buffer : Bytes) : feedChunks buffer 0 [] = buffer := by
  simpa using feedChunks_drop buffer.length buffer 0 [] (by omega)

/-- The leaf prefix byte: `'\x00'.encode(enc)` is the single byte 0. -/
theorem encode_x00 (enc : String) : encode enc "\x00" = [0] := rfl

/-- The node prefix byte: `'\x01'.encode(enc)` is the single byte 1. -/
theorem encode_x01 (enc : String) : encode enc "\x01" = [1] := rfl

/-- Shape of a successfully constructed engine: both normalized parameters
are supported, and the stored state records the provided algorithm spelling,
the normalized encoding, and the security-dependent prefixes. -/
theorem HashEngine.init_ok {alg enc : String} {sec : Bool} {eng : HashEngine}
    (h : HashEngine.init alg enc sec = .ok eng) :
    normalize alg ∈ ALGORITHMS ∧ normalize enc ∈ ENCODINGS ∧
    eng = { algorithm := alg
          , encoding := normalize enc
          , security := sec
          , prefx00 := if sec then [0] else []
          , prefx01 := if sec then [1] else [] } := by
  unfold HashEngine.init validate_parameters at h
  by_cases ha : normalize alg ∈ ALGORITHMS
  · by_cases he : normalize enc ∈ ENCODINGS
    · simp only [ha, he, if_pos, if_true] at h
      refine ⟨ha, he, ?_⟩
      cases h
      simp [encode_x00, encode_x01]
    · simp [ha, he] at h
  · simp [ha] at h

/-! Claim theorems about the hash engine. -/

/-- Claim C2: for every engine constructed with supported parameters and any
input data, `hash_entry` encodes text input to bytes with the configured
encoding, prepends the single leaf domain-separation byte 0x00 when security
is enabled and the empty prefix otherwise, computes the configured digest
algorithm over the resulting buffer, and returns the lowercase hexadecimal
digest re-encoded with the configured encoding. -/
theorem hash_entry_spec (H : String → Bytes → Bytes) (alg enc : String)
    (sec : Bool) (eng : HashEngine)
    (hinit : HashEngine.init alg enc sec = .ok eng) :
    (∀ b : Bytes, hash_entry H eng (.bytes b) =
      encode eng.encoding
        (toHexString (H eng.algorithm ((if sec then [0] else []) ++ b)))) ∧
    (∀ s : String, hash_entry H eng (.text s) =
      encode eng.encoding
        (toHexString (H eng.algorithm
          ((if sec then [0] else []) ++ encode eng.encoding s)))) ∧
    eng.algorithm = alg ∧ eng.security = sec := by
  obtain ⟨-, -, heng⟩ := HashEngine.init_ok hinit
  subst heng
  refine ⟨fun b => ?_, fun s => ?_, rfl, rfl⟩ <;>
    simp [hash_entry, consume, feedChunks_id]

/-- Witness for the C2 theorem: the sha256 / utf-8 / security engine on the
text input "a". -/
theorem hash_entry_spec_witness :
    hash_entry (fun _ _ => ([] : Bytes))
        ⟨"sha256", "utf_8", true, [0], [1]⟩ (.text "a") =
      encode "utf_8" (toHexString
        ((fun _ _ => ([] : Bytes)) "sha256" ([0] ++ encode "utf_8" "a"))) :=
  (hash_entry_spec (fun _ _ => []) "sha256" "utf-8" true
      ⟨"sha256", "utf_8", true, [0], [1]⟩ rfl).2.1 "a"

/-- Claim C3: with security enabled, `hash_pair` prepends the internal-node
byte 0x01 to each operand independently, digesting
prefix+left + prefix+right rather than one prefix on the whole buffer; in
particular the sha256 / utf-8 / security engine satisfies
hash_pair(hash_entry "a", hash_entry "b")
  = digest(0x01 + hash_entry "a" + 0x01 + hash_entry "b"). -/
theorem hash_pair_prefixes_each_operand (H : String → Bytes → Bytes)
    (alg enc : String) (eng : HashEngine)
    (hinit : HashEngine.init alg enc true = .ok eng) :
    (∀ left right : Bytes, hash_pair H eng left right =
      encode eng.encoding (toHexString (H eng.algorithm
        ([1] ++ left ++ [1] ++ right)))) ∧
    (∀ e2 : HashEngine, HashEngine.init "sha256" "utf-8" true = .ok e2 →
      hash_pair H e2 (hash_entry H e2 (.text "a"))
          (hash_entry H e2 (.text "b")) =
        encode e2.encoding (toHexString (H "sha256"
          ([1] ++ hash_entry H e2 (.text "a") ++ [1]
            ++ hash_entry H e2 (.text "b"))))) := by
  obtain ⟨-, -, heng⟩ := HashEngine.init_ok hinit
  subst heng
  constructor
  · intro left right
    simp [hash_pair, consume, feedChunks_id]
  · intro e2 h2
    obtain ⟨-, -, heng2⟩ := HashEngine.init_ok h2
    subst heng2
    simp [hash_pair, consume, feedChunks_id]

/-- Witness for the C3 theorem: a concrete engine and raw digest function,
with the specialized sha256 / utf-8 conjunct applied to the same engine. -/
theorem hash_pair_prefixes_each_operand_witness :
    hash_pair (fun _ b => [b.length])
        ⟨"sha256", "utf_8", true, [0], [1]⟩
        (hash_entry (fun _ b => [b.length])
          ⟨"sha256", "utf_8", true, [0], [1]⟩ (.text "a"))
        (hash_entry (fun _ b => [b.length])
          ⟨"sha256", "utf_8", true, [0], [1]⟩ (.text "b")) =
      encode "utf_8" (toHexString ((fun _ b => [b.length]) "sha256"
        ([1] ++ hash_entry (fun _ b => [b.length])
            ⟨"sha256", "utf_8", true, [0], [1]⟩ (.text "a") ++ [1]
          ++ hash_entry (fun _ b => [b.length])
            ⟨"sha256", "utf_8", true, [0], [1]⟩ (.text "b")))) :=
  (hash_pair_prefixes_each_operand (fun _ b => [b.length]) "sha256" "utf-8"
      ⟨"sha256", "utf_8", true, [0], [1]⟩ rfl).2
    ⟨"sha256", "utf_8", true, [0], [1]⟩ rfl

/-- Claim C4: the fixed-size chunking of `consume` is semantically
invisible: for every constructed engine and every buffer — empty, a
multiple of the 1024-byte chunk size, or otherwise — the chunked digest
equals the one-shot digest of the whole buffer. -/
theorem consume_chunking_invisible (H : String → Bytes → Bytes)
    (alg enc : String) (sec : Bool) (eng : HashEngine)
    (hinit : HashEngine.init alg enc sec = .ok eng) :
    ∀ buffer : Bytes, consume H eng buffer = consume_oneshot H eng buffer := by
  intro buffer
  simp [consume, consume_oneshot, feedChunks_id]

/-- Witness for the C4 theorem: a concrete engine and a buffer whose length
is an exact multiple of the chunk size. -/
theorem consume_chunking_invisible_witness :
    consume (fun _ b => [b.length]) ⟨"sha256", "utf_8", true, [0], [1]⟩
        (List.replicate 2048 7) =
      consume_oneshot (fun _ b => [b.length])
        ⟨"sha256", "utf_8", true, [0], [1]⟩ (List.replicate 2048 7) :=
  consume_chunking_invisible (fun _ b => [b.length]) "sha256" "utf-8" true
    ⟨"sha256", "utf_8", true, [0], [1]⟩ rfl (List.replicate 2048 7)

/-- Claim C6 (amended): construction succeeds exactly when the normalized
forms of the provided values — lowercased, with hyphens replaced by
underscores — belong to ALGORITHMS and ENCODINGS; a value whose
normalization is unsupported raises UnsupportedParameter immediately (the
algorithm checked first), naming the provided value, and no engine is
produced.  The provided spelling of the algorithm is what the engine
stores. -/
theorem hashengine_init_normalized (alg enc : String) (sec : Bool) :
    ((∃ eng, HashEngine.init alg enc sec = .ok eng) ↔
      (normalize alg ∈ ALGORITHMS ∧ normalize enc ∈ ENCODINGS)) ∧
    (normalize alg ∉ ALGORITHMS →
      HashEngine.init alg enc sec =
        .error (.unsupportedParameter (alg ++ " is not supported"))) ∧
    (normalize alg ∈ ALGORITHMS → normalize enc ∉ ENCODINGS →
      HashEngine.init alg enc sec =
        .error (.unsupportedParameter (enc ++ " is not supported"))) := by
  unfold HashEngine.init validate_parameters
  by_cases ha : normalize alg ∈ ALGORITHMS
  · by_cases he : normalize enc ∈ ENCODINGS
    · simp [ha, he]
    · simp [ha, he]
  · simp [ha]

/-- Witness for the C6 theorem: "md5" normalizes to itself, is unsupported,
and is rejected with the expected message. -/
theorem hashengine_init_normalized_witness :
    HashEngine.init "md5" "utf_8" true =
      .error (.unsupportedParameter ("md5" ++ " is not supported")) :=
  (hashengine_init_normalized "md5" "utf_8" true).2.1 (by decide)

/-- Counterexample to claim C6 as stated: "SHA256" lies outside ALGORITHMS,
yet construction succeeds, because validate_parameters lowercases before the
membership test; an out-of-set value is thus not always rejected. -/
theorem hashengine_accepts_unnormalized :
    "SHA256" ∉ ALGORITHMS ∧
    HashEngine.init "SHA256" "utf_8" true =
      .ok ⟨"SHA256", "utf_8", true, [0], [1]⟩ :=
  ⟨by decide, rfl⟩

/-- Claim C10: with security disabled both domain-separation prefixes are
empty, so hash_pair(left, right) is the plain digest of left ++ right and
coincides with hash_entry on the concatenated bytes: a value hashed as a
leaf is indistinguishable from the same bytes hashed as a pair. -/
theorem security_off_collapse (H : String → Bytes → Bytes) (alg enc : String)
    (eng : HashEngine) (hinit : HashEngine.init alg enc false = .ok eng) :
    eng.prefx00 = [] ∧ eng.prefx01 = [] ∧
    (∀ left right : Bytes, hash_pair H eng left right =
      encode eng.encoding
        (toHexString (H eng.algorithm (left ++ right)))) ∧
    (∀ left right : Bytes, hash_pair H eng left right =
      hash_entry H eng (.bytes (left ++ right))) := by
  obtain ⟨-, -, heng⟩ := HashEngine.init_ok hinit
  subst heng
  refine ⟨rfl, rfl, fun left right => ?_, fun left right => ?_⟩ <;>
    simp [hash_pair, hash_entry, consume, feedChunks_id]

/-- Witness for the C10 theorem: a concrete security-disabled engine on the
operands [2] and [3]. -/
theorem security_off_collapse_witness :
    hash_pair (fun _ b => b) ⟨"sha256", "utf_8", false, [], []⟩ [2] [3] =
      hash_entry (fun _ b => b) ⟨"sha256", "utf_8", false, [], []⟩
        (.bytes ([2] ++ [3])) :=
  (security_off_collapse (fun _ b => b) "sha256" "utf-8"
      ⟨"sha256", "utf_8", false, [], []⟩ rfl).2.2.2 [2] [3]

/-! Helper lemmas and claim theorems about the validation module. -/

/-- `Validator.run` either returns cleanly or raises `InvalidMerkleProof`;
no other exception originates in it. -/
theorem run_ok_or_invalid (mh : HashMachine → List SignedHash → Nat → Bytes)
    (v : HashMachine) (target : Bytes) (p : Proof) :
    Validator.run mh v target p = .ok () ∨
    Validator.run mh v target p = .error .invalidMerkleProof := by
  unfold Validator.run
  by_cases hg : p.header.generation = false <;>
    by_cases ht : target = mh v p.body.proof_path p.body.proof_index <;>
      simp [hg, ht]

/-- The hash-machine constructor never raises `InvalidMerkleProof`. -/
theorem hashmachine_init_ne_invalid (a b c d : CVal) :
    HashMachine.init a b c d ≠ .error .invalidMerkleProof := by
  cases a <;> cases b <;> cases c <;> cases d <;>
    simp [HashMachine.init] <;> split <;> simp

/-- `Validator.__init__` never raises `InvalidMerkleProof`: its failures are
the missing-key `KeyError` and the hash-machine configuration error. -/
theorem validator_init_ne_invalid (config : Config) :
    Validator.init config ≠ .error .invalidMerkleProof := by
  unfold Validator.init
  cases config.get? "hash_type" <;> simp
  cases config.get? "encoding" <;> simp
  cases config.get? "raw_bytes" <;> simp
  cases config.get? "security" <;> simp
  apply hashmachine_init_ne_invalid

/-- A successful `validateProof` returns the proof with exactly the status
slot overwritten by the returned boolean. -/
theorem validateProof_ok_shape
    (mh : HashMachine → List SignedHash → Nat → Bytes)
    (target : Bytes) (p : Proof) (b : Bool) (p1 : Proof)
    (h : validateProof mh target p = .ok (b, p1)) :
    p1 = p.setStatus b := by
  unfold validateProof at h
  cases hinit : Validator.init p.validation_params with
  | error e =>
    rw [hinit] at h
    simp at h
  | ok v =>
    rw [hinit] at h
    dsimp only at h
    rcases run_ok_or_invalid mh v target p with hr | hr <;> rw [hr] at h <;>
      dsimp only at h <;>
      simp only [Except.ok.injEq, Prod.mk.injEq] at h <;>
      rw [← h.1, ← h.2]

/-- Claim C1: `run` raises the invalid-proof error exactly when the proof's
generation flag is false or the candidate root folded from the proof path at
the proof index differs from the target in exact byte equality; with the
flag false it fails for every path and index (the path is never consulted),
with the flag true and a byte-equal candidate root it returns cleanly, and
it raises nothing besides `InvalidMerkleProof`. -/
theorem run_invalid_iff (mh : HashMachine → List SignedHash → Nat → Bytes)
    (v : HashMachine) (target : Bytes) (p : Proof) :
    (Validator.run mh v target p = .error .invalidMerkleProof ↔
      (p.header.generation = false ∨
        target ≠ mh v p.body.proof_path p.body.proof_index)) ∧
    (p.header.generation = false →
      ∀ (path : List SignedHash) (idx : Nat),
        Validator.run mh v target
            { p with body := { proof_path := path, proof_index := idx } } =
          .error .invalidMerkleProof) ∧
    (p.header.generation = true →
      target = mh v p.body.proof_path p.body.proof_index →
      Validator.run mh v target p = .ok ()) ∧
    (Validator.run mh v target p = .ok () ∨
      Validator.run mh v target p = .error .invalidMerkleProof) := by
  unfold Validator.run
  by_cases hg : p.header.generation = false <;>
    by_cases ht : target = mh v p.body.proof_path p.body.proof_index <;>
      simp [hg, ht]

/-- Witness for the C1 theorem: a generation-true proof whose candidate root
equals the target validates cleanly. -/
theorem run_invalid_iff_witness :
    Validator.run (fun _ _ _ => []) ⟨"sha256", "utf_8", true, true⟩ []
        ⟨⟨true, none, "pu", "pp"⟩, ⟨[], 0⟩, []⟩ = .ok () :=
  (run_invalid_iff (fun _ _ _ => []) ⟨"sha256", "utf_8", true, true⟩ []
      ⟨⟨true, none, "pu", "pp"⟩, ⟨[], 0⟩, []⟩).2.2.1 rfl rfl

/-- Claim C5 (amended): Validator construction succeeds only when the
configuration mapping contains the four keys hash_type, encoding, raw_bytes
and security; the first of these keys (in that checking order) that is
missing fails construction with the descriptive KeyError naming that key,
whose message literally contains the key name, so no validation operation
proceeds.  (The spec's key set names `algorithm` where the source requires
`hash_type`.) -/
theorem validator_init_requires_keys (config : Config) :
    (∀ v, Validator.init config = .ok v →
      (config.get? "hash_type").isSome ∧ (config.get? "encoding").isSome ∧
      (config.get? "raw_bytes").isSome ∧ (config.get? "security").isSome) ∧
    (config.get? "hash_type" = none →
      Validator.init config = .error (.keyError (missingKeyMsg "hash_type"))) ∧
    ((config.get? "hash_type").isSome → config.get? "encoding" = none →
      Validator.init config = .error (.keyError (missingKeyMsg "encoding"))) ∧
    ((config.get? "hash_type").isSome → (config.get? "encoding").isSome →
      config.get? "raw_bytes" = none →
      Validator.init config = .error (.keyError (missingKeyMsg "raw_bytes"))) ∧
    ((config.get? "hash_type").isSome → (config.get? "encoding").isSome →
      (config.get? "raw_bytes").isSome → config.get? "security" = none →
      Validator.init config = .error (.keyError (missingKeyMsg "security"))) ∧
    (∀ k : String, ∃ pre suf : String,
      missingKeyMsg k = pre ++ (k ++ suf)) := by
  unfold Validator.init
  refine ⟨?_, ?_, ?_, ?_, ?_,
    fun k => ⟨"Hash-machine could not be configured: missing parameter: \x27",
      "\x27", rfl⟩⟩ <;>
    cases h1 : config.get? "hash_type" <;>
      cases h2 : config.get? "encoding" <;>
        cases h3 : config.get? "raw_bytes" <;>
          cases h4 : config.get? "security" <;> simp

/-- Witness for the C5 theorem: a mapping lacking hash_type is rejected with
the KeyError naming hash_type. -/
theorem validator_init_requires_keys_witness :
    Validator.init [("encoding", CVal.str "utf_8")] =
      .error (.keyError (missingKeyMsg "hash_type")) :=
  (validator_init_requires_keys [("encoding", CVal.str "utf_8")]).2.1 rfl

/-- A configuration mapping carrying exactly the four keys the source
requires; it has no "algorithm" key. -/
def cfgHashType : Config :=
  [("hash_type", .str "sha256"), ("encoding", .str "utf_8"),
   ("raw_bytes", .bool true), ("security", .bool true)]

/-- Counterexample to claim C5 as stated: the key "algorithm" — one of the
four keys the claim says are required — is absent from this mapping, yet
Validator construction succeeds; the source requires hash_type instead. -/
theorem validator_accepts_without_algorithm_key :
    Config.get? cfgHashType "algorithm" = none ∧
    Validator.init cfgHashType = .ok ⟨"sha256", "utf_8", true, true⟩ :=
  ⟨rfl, rfl⟩

/-- Claim C7: validateProof constructs a Validator from the proof's declared
validation parameters — a construction failure propagates unchanged — maps a
clean run to True and an InvalidMerkleProof raised by run to False, never
lets that error escape, and writes the returned boolean into the proof
header's status slot in both the True and the False case. -/
theorem validateProof_spec (mh : HashMachine → List SignedHash → Nat → Bytes)
    (target : Bytes) (p : Proof) :
    (∀ e, Validator.init p.validation_params = .error e →
      validateProof mh target p = .error e) ∧
    (∀ v, Validator.init p.validation_params = .ok v →
      (Validator.run mh v target p = .ok () →
        validateProof mh target p = .ok (true, p.setStatus true)) ∧
      (Validator.run mh v target p = .error .invalidMerkleProof →
        validateProof mh target p = .ok (false, p.setStatus false))) ∧
    validateProof mh target p ≠ .error .invalidMerkleProof := by
  refine ⟨?_, ?_, ?_⟩
  · intro e he
    unfold validateProof
    rw [he]
  · intro v hv
    constructor <;> intro hr <;> unfold validateProof <;> rw [hv] <;>
      dsimp only <;> rw [hr]
  · unfold validateProof
    cases hinit : Validator.init p.validation_params with
    | error e =>
      intro hcon
      exact validator_init_ne_invalid p.validation_params (hinit.trans (by
        injection hcon with h
        rw [h]))
    | ok v =>
      dsimp only
      rcases run_ok_or_invalid mh v target p with hr | hr <;> rw [hr] <;> simp

/-- Witness for the C7 theorem: a well-configured generation-true proof with
matching root validates to True and the status slot is set. -/
theorem validateProof_spec_witness :
    validateProof (fun _ _ _ => []) []
        ⟨⟨true, none, "pu", "pp"⟩, ⟨[], 0⟩, cfgHashType⟩ =
      .ok (true, Proof.setStatus
        ⟨⟨true, none, "pu", "pp"⟩, ⟨[], 0⟩, cfgHashType⟩ true) :=
  ((validateProof_spec (fun _ _ _ => []) []
      ⟨⟨true, none, "pu", "pp"⟩, ⟨[], 0⟩, cfgHashType⟩).2.1
    ⟨"sha256", "utf_8", true, true⟩ rfl).1 rfl

/-- Claim C8: validationReceipt returns the receipt whose body is built from
the proof header's uuid and provider and the boolean produced by
validateProof; exactly when a (truthy) directory path is supplied it
additionally writes the sorted-keys, 4-space-indented JSON serialization of
the receipt to the file <dirpath>/<receipt header uuid>.json, and with no
directory supplied it performs no I/O; the proof fields the receipt reads
are unchanged by the status write. -/
theorem validationReceipt_spec
    (mh : HashMachine → List SignedHash → Nat → Bytes)
    (uuid : String) (ts : Int) (moment : String)
    (target : Bytes) (p : Proof) (b : Bool) (p1 : Proof)
    (hval : validateProof mh target p = .ok (b, p1)) :
    (∀ d : String, ¬ d.isEmpty = true →
      validationReceipt mh uuid ts moment target p (some d) =
        .ok (Receipt.fresh uuid ts moment p1.header.uuid p1.header.provider b,
          p1,
          some ⟨joinPath d (uuid ++ ".json"),
            jsonDumps (Receipt.fresh uuid ts moment p1.header.uuid
              p1.header.provider b).serialize⟩)) ∧
    (validationReceipt mh uuid ts moment target p none =
      .ok (Receipt.fresh uuid ts moment p1.header.uuid p1.header.provider b,
        p1, none)) ∧
    jGet (Receipt.fresh uuid ts moment p1.header.uuid p1.header.provider
      b).header "uuid" = some (.str uuid) ∧
    jGet (Receipt.fresh uuid ts moment p1.header.uuid p1.header.provider
      b).body "proof_uuid" = some (.str p1.header.uuid) ∧
    jGet (Receipt.fresh uuid ts moment p1.header.uuid p1.header.provider
      b).body "proof_provider" = some (.str p1.header.provider) ∧
    jGet (Receipt.fresh uuid ts moment p1.header.uuid p1.header.provider
      b).body "result" = some (.bool b) ∧
    p1.header.uuid = p.header.uuid ∧ p1.header.provider = p.header.provider := by
  have hshape := validateProof_ok_shape mh target p b p1 hval
  refine ⟨?_, ?_, rfl, rfl, rfl, rfl, by rw [hshape]; rfl, by rw [hshape]; rfl⟩
  · intro d hd
    unfold validationReceipt
    rw [hval]
    simp only [Bool.not_eq_true] at hd
    simp [hd]
  · unfold validationReceipt
    rw [hval]

/-- Witness for the C8 theorem: a concrete validation with storage directory
"receipts" performs exactly the expected file write. -/
theorem validationReceipt_spec_witness :
    validationReceipt (fun _ _ _ => []) "ruuid" 42 "mo" []
        ⟨⟨true, none, "pu", "pp"⟩, ⟨[], 0⟩, cfgHashType⟩ (some "receipts") =
      .ok (Receipt.fresh "ruuid" 42 "mo" "pu" "pp" true,
        Proof.setStatus ⟨⟨true, none, "pu", "pp"⟩, ⟨[], 0⟩, cfgHashType⟩ true,
        some ⟨joinPath "receipts" ("ruuid" ++ ".json"),
          jsonDumps (Receipt.fresh "ruuid" 42 "mo" "pu" "pp"
            true).serialize⟩) :=
  (validationReceipt_spec (fun _ _ _ => []) "ruuid" 42 "mo" []
      ⟨⟨true, none, "pu", "pp"⟩, ⟨[], 0⟩, cfgHashType⟩ true
      (Proof.setStatus ⟨⟨true, none, "pu", "pp"⟩, ⟨[], 0⟩, cfgHashType⟩ true)
      rfl).1 "receipts" (by decide)

/-- Replication from the serialized dict copies header and body verbatim. -/
theorem receipt_from_dict_serialize (r : Receipt) :
    Receipt.from_dict r.serialize = .ok r := rfl

/-- Claim C9: replicating a receipt — constructing from its serialized dict,
or from its JSON text through a loads inverting dumps — reproduces the
original header (uuid, timestamp, validation_moment) and body (proof_uuid,
proof_provider, result) verbatim; no new uuid or timestamp is minted, the
fresh header fields being exactly the ones stored at first construction. -/
theorem receipt_replication_preserves (uuid : String) (ts : Int)
    (moment pu pp : String) (res : Bool) :
    (∀ r : Receipt, Receipt.from_dict r.serialize = .ok r) ∧
    (∀ (parse : String → JVal) (r : Receipt),
      parse r.toJsonString = r.serialize →
      Receipt.from_json parse r.toJsonString = .ok r) ∧
    ((Receipt.fresh uuid ts moment pu pp res).header =
      .obj [("uuid", .str uuid), ("timestamp", .int ts),
        ("validation_moment", .str moment)]) ∧
    ((Receipt.fresh uuid ts moment pu pp res).body =
      .obj [("proof_uuid", .str pu), ("proof_provider", .str pp),
        ("result", .bool res)]) := by
  refine ⟨receipt_from_dict_serialize, ?_, rfl, rfl⟩
  intro parse r h
  unfold Receipt.from_json
  rw [h]
  exact receipt_from_dict_serialize r

/-- Witness for the C9 theorem: a concrete fresh receipt replicated through
its own JSON text with a loads that inverts dumps on it. -/
theorem receipt_replication_preserves_witness :
    Receipt.from_json
        (fun _ => (Receipt.fresh "u" 7 "m" "pu" "pp" true).serialize)
        (Receipt.fresh "u" 7 "m" "pu" "pp" true).toJsonString =
      .ok (Receipt.fresh "u" 7 "m" "pu" "pp" true) :=
  (receipt_replication_preserves "u" 7 "m" "pu" "pp" true).2.1
    (fun _ => (Receipt.fresh "u" 7 "m" "pu" "pp" true).serialize)
    (Receipt.fresh "u" 7 "m" "pu" "pp" true) rfl

end Pymerkle
